import Mathlib

/-!
Verification development for the trod typed-SQL expression and
schema-definition core (`trod/types/_impl.py`).

Python values, nodes and the per-render `Context` are shallowly embedded.
Pure Python functions become Lean functions; Python in-place mutation
(`Expression.__sql__` reassigns `self.rhs`; `Table.__init__` reassigns
each field's `table` back-reference) becomes explicit state passing: a
render returns the possibly-updated node next to the updated context.
Fallible Python code (raising) returns `Except`.

The classes `Node`, `Context`, `Value`, `NodeList`, `EnclosedNodeList`
and `SQL` live in `trod/_helper.py`, and `adapter`/`validator` live next
to `_impl.py`; those files are not part of the sources at hand, so their
behaviour is modelled from the specification where marked.
-/

/-- Host-language (Python) scalar values as they occur as operands and
bound parameters: `None`, integers and strings. -/
inductive DbVal where
  | vNull
  | vInt (i : Int)
  | vStr (s : String)
  deriving DecidableEq, Repr

/-- Python `str()` on the modelled scalars (`str(None) = "None"`). -/
def pyStr : DbVal → String
  | .vNull => "None"
  | .vInt i => toString i
  | .vStr s => s

/-- The `db_value` conversion of a string-typed field
(`Char`/`VarChar`: `adapt = str`), with the `None` pass-through of
`FieldBase.db_value`.  Used as the active value converter registered by
`Expression.__sql__` when an operand is a field. -/
def strConv : DbVal → DbVal
  | .vNull => .vNull
  | v => .vStr (pyStr v)

/-- Errors raised by the embedded code, mirroring `trod.err` and Python
builtins. -/
inductive PyErr where
  | typeError (msg : String)
  | programmingError (msg : String)
  | valueError (msg : String)
  | noColumnName
  | noPK (msg : String)
  deriving DecidableEq, Repr

/-- Modelled from the spec: the per-render `Context` state — accumulated
SQL text, ordered parameter list, the alias map used to detect ambiguous
aliases, and the scoped rendering options (active value converter,
nested-list rendering, bound-parameters mode). -/
structure Ctx where
  sqlText : String
  params : List DbVal
  aliases : List (String × String)
  conv : Bool
  nesting : Bool
  paramsOpt : Bool
  deriving DecidableEq, Repr

/-- Modelled from the spec: a fresh `Context` for a top-level render. -/
def Ctx.init : Ctx := ⟨"", [], [], false, false, false⟩

/-- Modelled from the spec: `Context.literal`, appending a SQL fragment. -/
def Ctx.lit (c : Ctx) (s : String) : Ctx :=
  { c with sqlText := c.sqlText ++ s }

/-- Modelled from the spec: `Context.value` — run the active converter,
then either bind the value as a `?` parameter (params mode) or inline
its literal text. -/
def Ctx.bindValue (c : Ctx) (v : DbVal) : Ctx :=
  let w := if c.conv then strConv v else v
  if c.paramsOpt then
    { c with sqlText := c.sqlText ++ "?", params := c.params ++ [w] }
  else
    { c with sqlText := c.sqlText ++ pyStr w }

/-- Modelled from the spec: binding a host sequence of values — under
nested-list rendering it becomes an enclosed (parenthesized) comma list
of bound values. -/
def Ctx.bindSeq (c : Ctx) (vs : List DbVal) : Ctx :=
  let ws := vs.map (fun v => if c.conv then strConv v else v)
  let body :=
    if c.paramsOpt then String.intercalate ", " (vs.map (fun _ => "?"))
    else String.intercalate ", " (ws.map pyStr)
  let body := if c.nesting then "(" ++ body ++ ")" else body
  { c with sqlText := c.sqlText ++ body,
           params := if c.paramsOpt then c.params ++ ws else c.params }

/-- The scoped options saved and restored by `with ctx(**overrides)`. -/
structure CtxOpts where
  conv : Bool
  nesting : Bool
  paramsOpt : Bool
  deriving DecidableEq, Repr

/-- Read the current scoped options. -/
def Ctx.opts (c : Ctx) : CtxOpts := ⟨c.conv, c.nesting, c.paramsOpt⟩

/-- Restore options at scope exit (accumulated text, params and aliases
persist). -/
def Ctx.restore (c : Ctx) (o : CtxOpts) : Ctx :=
  { c with conv := o.conv, nesting := o.nesting, paramsOpt := o.paramsOpt }

/-- The node tree.  Constructors follow the source classes: `SQL`
fragments, bound `Value`s, fields (a `Char`-like `FieldBase` not bound to
a table, identified by its column name), binary `Expression`s, the
single-element `EnclosedNodeList` produced by IN-coercion, `Alias`,
`Func`, and the two non-`Node` operand shapes Python allows: a raw host
value and a host sequence of values. -/
inductive Term where
  | sqlT (s : String)
  | valueT (v : DbVal)
  | fieldT (name : String)
  | exprT (lhs : Term) (op : String) (rhs : Term) (parens : Bool)
  | enclosedT (inner : Term)
  | aliasT (node : Term) (a : String)
  | funcT (fname : String) (arg : Term)
  | rawT (v : DbVal)
  | rawSeqT (vs : List DbVal)
  deriving DecidableEq, Repr

/-- `isinstance(x, Node)`: everything except raw host values and host
sequences. -/
def isNode : Term → Bool
  | .rawT _ => false
  | .rawSeqT _ => false
  | _ => true

/-- `isinstance(x, Column)`: fields, expressions and aliases (the
`Column` subclasses among the modelled nodes). -/
def isColumn : Term → Bool
  | .fieldT _ => true
  | .exprT _ _ _ _ => true
  | .aliasT _ _ => true
  | _ => false

/-- `isinstance(x, FieldBase)`. -/
def isFieldT : Term → Bool
  | .fieldT _ => true
  | _ => false

/-- The operator subset singled out by `Expression.__sql__`:
IN / NOT IN / EXISTS / NOT EXISTS. -/
def InFamily (op : String) : Bool :=
  op = "IN" || op = "NOT IN" || op = "EXISTS" || op = "NOT EXISTS"

/-- Python `str.upper()` (character-wise, as the sources use it on
ASCII function names). -/
def upperStr (s : String) : String :=
  String.mk (s.toList.map Char.toUpper)

/-- `isinstance(x, SEQUENCE)`: the host-sequence operand shape. -/
def isSeqT : Term → Bool
  | .rawSeqT _ => true
  | _ => false

/-- Python `str()` of an operand as interpolated into the invalid-values
message (only raw host values reach it). -/
def termStr : Term → String
  | .rawT v => pyStr v
  | _ => ""

/-- Rendering (`__sql__`), returning the possibly-updated node (Python
mutates nodes in place) and the updated context.
Source cases: `Expression.__sql__`, `Alias.__sql__`, `Func.__sql__`,
`FieldBase.__sql__`; `SQL`/`Value`/`EnclosedNodeList` and the
raw-value/sequence dispatch of `Context.sql` are modelled from the spec.
In `Expression.__sql__`, a `FieldBase` operand registers its `db_value`
converter; for IN-family operators a non-sequence non-`Node` rhs raises
`TypeError`, a `Node` rhs is reassigned to `EnclosedNodeList([rhs])`
(the in-place mutation shows up in the returned node), and a sequence
rhs is retupled, with nested-list rendering switched on. -/
def renderT : Term → Ctx → Except PyErr (Term × Ctx)
  | .sqlT s, c => .ok (.sqlT s, c.lit s)
  | .valueT v, c => .ok (.valueT v, c.bindValue v)
  | .rawT v, c => .ok (.rawT v, c.bindValue v)
  | .rawSeqT vs, c => .ok (.rawSeqT vs, c.bindSeq vs)
  | .fieldT n, c =>
    if n = "" then .error .noColumnName
    else .ok (.fieldT n, c.lit ("`" ++ n ++ "`"))
  | .funcT f a, c =>
    match renderT a (((c.lit (upperStr f)).lit "(")) with
    | .error e => .error e
    | .ok (a', c1) => .ok (.funcT f a', c1.lit ")")
  | .enclosedT inner, c =>
    match renderT inner (c.lit "(") with
    | .error e => .error e
    | .ok (i', c1) => .ok (.enclosedT i', c1.lit ")")
  | .aliasT n a, c =>
    match renderT n c with
    | .error e => .error e
    | .ok (n', c1) =>
      let c1 := c1.lit (" AS `" ++ a ++ "`")
      if isColumn n then
        let realname :=
          match n with
          | .fieldT nm => if nm = "" then a else nm
          | _ => a
        if c1.aliases.any (fun p => p.1 = a) then
          .error (.programmingError ("Ambiguous alias: " ++ a))
        else
          .ok (.aliasT n' a, { c1 with aliases := c1.aliases ++ [(a, realname)] })
      else
        .ok (.aliasT n' a, c1)
  | .exprT lhs op rhs p, c =>
    let conv' :=
      if isFieldT lhs then true
      else if isFieldT rhs then true
      else c.conv
    if InFamily op then
      if isNode rhs || isSeqT rhs then
        let saved := c.opts
        let c := { c with conv := conv', nesting := true, paramsOpt := true }
        let c := if p then c.lit "(" else c
        match renderT lhs c with
        | .error e => .error e
        | .ok (lhs', c) =>
          let c := c.lit (" " ++ op ++ " ")
          if isNode rhs then
            match renderT rhs (c.lit "(") with
            | .error e => .error e
            | .ok (rhs', c) =>
              let c := c.lit ")"
              let c := if p then c.lit ")" else c
              .ok (.exprT lhs' op (.enclosedT rhs') p, c.restore saved)
          else
            match renderT rhs c with
            | .error e => .error e
            | .ok (rhs', c) =>
              let c := if p then c.lit ")" else c
              .ok (.exprT lhs' op rhs' p, c.restore saved)
      else
        .error (.typeError
          ("Invalid values " ++ termStr rhs ++ " for operator '" ++ op ++ "'"))
    else
      let saved := c.opts
      let c := { c with conv := conv', paramsOpt := true }
      let c := if p then c.lit "(" else c
      match renderT lhs c with
      | .error e => .error e
      | .ok (lhs', c) =>
        let c := c.lit (" " ++ op ++ " ")
        match renderT rhs c with
        | .error e => .error e
        | .ok (rhs', c) =>
          let c := if p then c.lit ")" else c
          .ok (.exprT lhs' op rhs' p, c.restore saved)

/-- The render entry point of the spec: fresh `Context`, returning the
(possibly mutated) tree, the SQL text and the ordered parameter list. -/
def render (t : Term) : Except PyErr (Term × String × List DbVal) :=
  match renderT t Ctx.init with
  | .error e => .error e
  | .ok (t', c) => .ok (t', c.sqlText, c.params)

/-- No IN / NOT IN / EXISTS / NOT EXISTS operator occurs in the tree. -/
def noInOp : Term → Bool
  | .exprT lhs op rhs _ => !InFamily op && noInOp lhs && noInOp rhs
  | .enclosedT inner => noInOp inner
  | .aliasT n _ => noInOp n
  | .funcT _ a => noInOp a
  | _ => true

/-- `ColumnBase.__eq__`: `==` against the host null builds an IS
expression, any other right-hand side an EQ (`=`) expression
(`OPERATOR.EQ = '='`). -/
def colEq (lhs rhs : Term) : Term :=
  .exprT lhs (if rhs = .rawT .vNull then "IS" else "=") rhs true

/-- `ColumnBase.__ne__`: `!=` against the host null builds an IS NOT
expression, any other right-hand side an NE (`!=`) expression
(`OPERATOR.NE = '!='`). -/
def colNe (lhs rhs : Term) : Term :=
  .exprT lhs (if rhs = .rawT .vNull then "IS NOT" else "!=") rhs true

/-- The operator carried by an expression node. -/
def Term.opOf : Term → String
  | .exprT _ op _ _ => op
  | _ => ""

/-- A field's `default` attribute as seen by `FieldDDL._parse_options`
(`getattr(self.field, 'default', NULL)`): Python `None`, a raw `SQL`
literal, a callable, or a plain host value.  The `'null'` sentinel of
a field lacking the attribute is the plain string value `'null'`. -/
inductive DefaultV where
  | noneD
  | sqlD (s : String)
  | callableD
  | plainD (v : DbVal)
  deriving DecidableEq, Repr

/-- `ops.default in (None, NULL)` with `NULL = 'null'`: Python `in`
compares by equality, so both `None` and a plain value equal to the
string `'null'` match. -/
def isNullSentinel : DefaultV → Bool
  | .noneD => true
  | .plainD (.vStr s) => s = "null"
  | _ => false

/-- The inner `to_default_sql` of `FieldDDL._parse_default`: a raw `SQL`
default is emitted verbatim after `DEFAULT`, a callable yields no
clause, and any other default is stringified by the field's `to_str`
(the `adapt` argument) inside single quotes.  `_parse_default` never
reaches it with a `None` default (`to_str(None)` would raise); that case
is mapped to `none`. -/
def toDefaultSql (adapt : DbVal → String) : DefaultV → Option String
  | .sqlD s => some ("DEFAULT " ++ s)
  | .callableD => none
  | .plainD v => some ("DEFAULT '" ++ adapt v ++ "'")
  | .noneD => none

/-- `FieldDDL._parse_default`: the nullability/default clause of a
column definition, from the options gathered by `_parse_options`
(auto-increment flag, nullability, default, the field's `to_str` as
`adapt`) and the field's `db_type`. -/
def parseDefault (adapt : DbVal → String) (auto allowNull : Bool)
    (default : DefaultV) (dbType : String) : Option String :=
  if auto then some "NOT NULL AUTO_INCREMENT"
  else if allowNull then
    if default = .noneD then
      some (if dbType = "timestamp" then "NULL DEFAULT NULL" else "DEFAULT NULL")
    else if isNullSentinel default then
      some "NULL"
    else
      match toDefaultSql adapt default with
      | some d => some d
      | none =>
        some (if dbType = "timestamp" then "NULL DEFAULT NULL" else "DEFAULT NULL")
  else
    if isNullSentinel default then
      some "NOT NULL"
    else
      match toDefaultSql adapt default with
      | some ds => some ("NOT NULL " ++ ds)
      | none => some "NOT NULL"

/-- A default value acceptable to an integer field's constructor:
an int, a raw `SQL` literal, or a callable. -/
inductive FDefault where
  | intD (i : Int)
  | sqlD (s : String)
  | callD
  deriving DecidableEq, Repr

/-- Python truthiness of such a default (`if default:` in
`FieldBase.__init__`). -/
def fdefaultTruthy : FDefault → Bool
  | .intD i => i ≠ 0
  | .sqlD _ => true
  | .callD => true

/-- The `FieldBase.__init__` default type check
(`isinstance(default, (int, SQL)) or callable(default)`): every
`FDefault` shape passes. -/
def intDefaultTypeOk : FDefault → Bool
  | .intD _ => true
  | .sqlD _ => true
  | .callD => true

/-- The `Int` field record after construction. -/
structure IntField where
  length : Nat
  unsigned : Bool
  zerofill : Bool
  primary_key : Bool
  auto : Bool
  null : Bool
  default : Option FDefault
  comment : String
  name : String
  table : Option String
  warned : Bool
  deriving DecidableEq, Repr

/-- Python `x or d` on an optional length (`None` and `0` are falsy). -/
def pyOrNat (v : Option Nat) (d : Nat) : Nat :=
  match v with
  | some n => if n = 0 then d else n
  | none => d

/-- `Int.__init__` (through `Tinyint.__init__` and
`FieldBase.__init__`): a primary key forces `null = False` and forbids
an explicit default; `auto` on a non-primary-key field raises; the base
initializer type-checks a truthy default and records the advisory
warning for a NOT NULL field lacking a default and primary-key status. -/
def intInit (length : Option Nat) (unsigned zerofill primary_key auto null : Bool)
    (default : Option FDefault) (comment name : String) : Except PyErr IntField :=
  let len := pyOrNat length 11
  if primary_key then
    if default ≠ none then
      .error (.programmingError "Primary key field not allow set default")
    else
      .ok ⟨len, unsigned, zerofill, primary_key, auto, false, default,
           comment, name, none, false⟩
  else if auto then
    .error (.programmingError
      "'AUTO_INCREMENT' cannot be set for non-primary key fields")
  else
    match default with
    | some d =>
      if fdefaultTruthy d ∧ ¬ intDefaultTypeOk d then
        .error (.typeError "Invalid Int default value")
      else
        .ok ⟨len, unsigned, zerofill, primary_key, auto, null, default,
             comment, name, none, false⟩
    | none =>
      .ok ⟨len, unsigned, zerofill, primary_key, auto, null, default,
           comment, name, none, !null⟩

/-- A field as held in a table's `fields_dict`: only the pieces
`Table.__init__` touches — the name and the mutable `table`
back-reference. -/
structure FieldS where
  fname : String
  table : Option String
  deriving DecidableEq, Repr

/-- The `primary` descriptor handed to `Table.__init__`: the
primary-key field (if any) and the auto-increment start. -/
structure Primary where
  field : Option String
  begin_ : Option Nat
  deriving DecidableEq, Repr

/-- `Table.table_name`: schema-qualified, backtick-quoted. -/
def tableName (db : Option String) (name : String) : String :=
  match db with
  | some d => "`" ++ d ++ "`.`" ++ name ++ "`"
  | none => "`" ++ name ++ "`"

/-- The constructed table metadata. -/
structure TableS where
  db : Option String
  name : String
  auto_increment : Nat
  engine : String
  charset : String
  comment : String
  primaryField : Option String
  deriving DecidableEq, Repr

/-- Python `s or d` on an optional string (`None` and `''` are falsy). -/
def pyOrStr (v : Option String) (d : String) : String :=
  match v with
  | some s => if s = "" then d else s
  | none => d

/-- `Table.__init__`, with the in-place mutation made explicit: the
first component of the result is the caller's `fields_dict` after the
back-reference loop (every field's `table` set to this table), and the
second is the construction outcome.  The back-references are assigned
before the primary-key validation, so they are mutated even when
construction fails with the missing-primary-key error. -/
def tableInit (db : Option String) (name : String)
    (fields_dict : List (String × FieldS)) (primary : Primary)
    (engine charset comment : Option String) :
    List (String × FieldS) × Except PyErr TableS :=
  let auto_increment := pyOrNat primary.begin_ 1
  let mutated := fields_dict.map
    (fun kf => (kf.1, { kf.2 with table := some (tableName db name) }))
  if primary.field = none then
    (mutated, .error (.noPK ("Primary key not found for table " ++ tableName db name)))
  else
    (mutated, .ok ⟨db, name, auto_increment, pyOrStr engine "InnoDB",
                   pyOrStr charset "utf8", pyOrStr comment "",
                   primary.field⟩)

/-- `FieldBase.py_value`: `value if value is None else self.adapt(value)`.
`adapt` is the variant's normalizer and may raise.  `Bool`, `Email`,
`URL`, `Date`, `Time` and `DateTime` inherit this body, overriding only
`adapt`. -/
def field_py_value (adapt : DbVal → Except PyErr DbVal) :
    Option DbVal → Except PyErr (Option DbVal)
  | none => .ok none
  | some v => (adapt v).map some

/-- `FieldBase.db_value`: same body as `py_value`. -/
def field_db_value (adapt : DbVal → Except PyErr DbVal) :
    Option DbVal → Except PyErr (Option DbVal)
  | none => .ok none
  | some v => (adapt v).map some

/-- A `decimal.Decimal` value: `mant * 10 ^ (-scale)`. -/
structure Dec where
  mant : Int
  scale : Nat
  deriving DecidableEq, Repr

/-- Value equality of two decimals (ignoring trailing-zero scale). -/
def decValEq (a b : Dec) : Bool :=
  a.mant * (10 : Int) ^ b.scale = b.mant * (10 : Int) ^ a.scale

/-- A decimal rounding mode; `halfEven` is
`decimal.DefaultContext.rounding` (banker's rounding), the default of
the `Decimal` field. -/
inductive Rounding where
  | halfEven
  | down
  deriving DecidableEq, Repr

/-- Divide a mantissa by `10 ^ d` under a rounding mode (`down` is
toward zero; `halfEven` rounds ties to the even neighbour). -/
def quantizeMant (rnd : Rounding) (m : Int) (d : Nat) : Int :=
  if d = 0 then m
  else
    let D : Int := (10 : Int) ^ d
    match rnd with
    | .down => m.tdiv D
    | .halfEven =>
      let q := m.fdiv D
      let r := m.fmod D
      if 2 * r < D then q
      else if 2 * r > D then q + 1
      else if q % 2 = 0 then q else q + 1

/-- `Decimal.quantize(Decimal(10) ** (-newScale), rounding)`: rescale to
the target scale. -/
def quantize (d : Dec) (newScale : Nat) (rnd : Rounding) : Dec :=
  if d.scale ≤ newScale then ⟨d.mant * (10 : Int) ^ (newScale - d.scale), newScale⟩
  else ⟨quantizeMant rnd d.mant (d.scale - newScale), newScale⟩

/-- Read a non-empty all-digit character run as a number. -/
def digitsToNat (cs : List Char) : Option Nat :=
  if cs = [] then none
  else
    cs.foldl
      (fun acc c =>
        match acc with
        | none => none
        | some n => if c.isDigit then some (n * 10 + (c.toNat - 48)) else none)
      (some 0)

/-- Split a character run at the first decimal point. -/
def splitPoint : List Char → List Char × Option (List Char)
  | [] => ([], none)
  | c :: rest =>
    if c = '.' then ([], some rest)
    else
      let (ip, fp) := splitPoint rest
      (c :: ip, fp)

/-- `decimal.Decimal(s)` on a plain sign-digits-point-digits literal
(the shapes produced by `str` on the modelled inputs); anything else
raises the conversion error. -/
def parseDec (s : String) : Except PyErr Dec :=
  let core := fun (cs : List Char) (sign : Int) =>
    match splitPoint cs with
    | (ip, none) =>
      match digitsToNat ip with
      | some n => Except.ok (⟨sign * (n : Int), 0⟩ : Dec)
      | none => Except.error (.valueError ("invalid decimal literal " ++ s))
    | (ip, some fp) =>
      match digitsToNat ip, digitsToNat fp with
      | some n, some f =>
        Except.ok (⟨sign * ((n : Int) * (10 : Int) ^ fp.length + (f : Int)),
                    fp.length⟩ : Dec)
      | _, _ => Except.error (.valueError ("invalid decimal literal " ++ s))
  match s.toList with
  | '-' :: rest => core rest (-1)
  | cs => core cs 1

/-- A host value handed to the `Decimal` field's conversions: `None`, a
string, an int, or an existing decimal. -/
inductive DecIn where
  | dnone
  | dstr (s : String)
  | dint (i : Int)
  | ddec (d : Dec)
  deriving DecidableEq, Repr

/-- Python falsiness of such a value (`if not value:`). -/
def decFalsy : DecIn → Bool
  | .dnone => true
  | .dstr s => s = ""
  | .dint i => i = 0
  | .ddec d => d.mant = 0

/-- `Decimal(str(value))` for the non-falsy inputs (`str` on a decimal
round-trips its value). -/
def decOfIn : DecIn → Except PyErr Dec
  | .dstr s => parseDec s
  | .dint i => .ok ⟨i, 0⟩
  | .ddec d => .ok d
  | .dnone => .error (.typeError "conversion from NoneType to Decimal is not supported")

/-- `Decimal.db_value`: a falsy value short-circuits — `None` passes
through and every other falsy value returns a freshly constructed
`Decimal(0)` (scale 0, bypassing the rounding path); otherwise
`Decimal(str(value))`, quantized to the field's scale under its
rounding mode when `auto_round` is set. -/
def decDbValue (scale : Nat) (rnd : Rounding) (autoRound : Bool) (v : DecIn) :
    Except PyErr (Option Dec) :=
  if decFalsy v then
    match v with
    | .dnone => .ok none
    | _ => .ok (some ⟨0, 0⟩)
  else if autoRound then
    (decOfIn v).map (fun d => some (quantize d scale rnd))
  else
    (decOfIn v).map some

/-- `Decimal.py_value`: `None` passes through, an existing decimal is
returned as-is, anything else goes through `Decimal(str(value))`. -/
def decPyValue : DecIn → Except PyErr (Option Dec)
  | .dnone => .ok none
  | .ddec d => .ok (some d)
  | .dint i => .ok (some ⟨i, 0⟩)
  | .dstr s => (parseDec s).map some

/-- Hex digit check (Python `int(hex, 16)` accepts both cases). -/
def isHexDigitCh (c : Char) : Bool :=
  c.isDigit || (('a' ≤ c && c ≤ 'f') || ('A' ≤ c && c ≤ 'F'))

/-- A brace character, written via its code point. -/
def isBraceCh (c : Char) : Bool :=
  c = Char.ofNat 0x7b || c = Char.ofNat 0x7d

/-- Python `str.strip('{}')`: drop braces from both ends. -/
def stripBraces (s : String) : String :=
  String.mk (((s.toList.dropWhile isBraceCh).reverse.dropWhile isBraceCh).reverse)

/-- Remove every occurrence of `pat` from `cs`, fuelled by the input
length (each step consumes at least one character, so the fuel is
ample); mirrors Python `str.replace(pat, '')` for a non-empty pattern. -/
def stripFuel (pat : List Char) : Nat → List Char → List Char
  | _, [] => []
  | 0, cs => cs
  | n + 1, c :: rest =>
    if List.isPrefixOf pat (c :: rest) then
      stripFuel pat n (rest.drop (pat.length - 1))
    else c :: stripFuel pat n rest

/-- Python `s.replace(pat, '')` for a non-empty pattern. -/
def replaceAll (s pat : String) : String :=
  if pat.toList = [] then s
  else String.mk (stripFuel pat.toList s.toList.length s.toList)

/-- `uuid.UUID(hex=s)` followed by `.hex`: strip the `urn:uuid:`
prefix, braces and dashes; the result must be exactly 32 hex digits,
and `.hex` renders them lowercase.  `none` models the raised
`ValueError`. -/
def uuidCanon (s : String) : Option String :=
  let t := replaceAll (replaceAll s "urn:") "uuid:"
  let t := replaceAll (stripBraces t) "-"
  if t.length = 32 ∧ t.toList.all isHexDigitCh then
    some (String.mk (t.toList.map Char.toLower))
  else none

/-- Two lowercase hex digits of one byte. -/
def byteHex (b : Nat) : String :=
  let d := fun (n : Nat) => (Nat.toDigits 16 n).headD '0'
  String.mk [d ((b % 256) / 16), d (b % 16)]

/-- `uuid.UUID(bytes=b).hex`. -/
def bytesHex (bs : List Nat) : String :=
  String.join (bs.map byteHex)

/-- A host value handed to the `UUID` field's conversions: `None`, a
string, a bytes object, an existing `uuid.UUID` (carried by its `.hex`
form), or any other object. -/
inductive UIn where
  | unone
  | ustr (s : String)
  | ubytes (bs : List Nat)
  | uuuid (hex : String)
  | uother
  deriving DecidableEq, Repr

/-- `UUID.db_value`: a 32-character string is returned as-is; 16 bytes
become a `uuid.UUID` whose `.hex` is returned; an existing `uuid.UUID`
yields its `.hex`; everything else is tried through `uuid.UUID(value)`
— and on any exception the original value is returned unchanged (the
`except Exception` swallows the failure).  The function is therefore
total. -/
def uuidDbValue : UIn → UIn
  | .ustr s =>
    if s.length = 32 then .ustr s
    else
      match uuidCanon s with
      | some h => .ustr h
      | none => .ustr s
  | .ubytes bs =>
    if bs.length = 16 then .ustr (bytesHex bs)
    else .ubytes bs
  | .uuuid h => .ustr h
  | .unone => .unone
  | .uother => .uother

/-- `UUID.py_value`: an existing `uuid.UUID` is returned, `None` passes
through, and any other value goes through `uuid.UUID(value)` with no
exception handler — malformed input raises. -/
def uuidPyValue : UIn → Except PyErr (Option String)
  | .uuuid h => .ok (some h)
  | .unone => .ok none
  | .ustr s =>
    match uuidCanon s with
    | some h => .ok (some h)
    | none => .error (.valueError "badly formed hexadecimal UUID string")
  | .ubytes _ => .error (.typeError "uuid hex argument must be a string")
  | .uother => .error (.typeError "uuid hex argument must be a string")

/-- Split a character run on `'.'` separators. -/
def splitDots : List Char → List (List Char)
  | [] => [[]]
  | c :: rest =>
    let groups := splitDots rest
    if c = '.' then [] :: groups
    else
      match groups with
      | [] => [[c]]
      | g :: gs => (c :: g) :: gs

/-- Modelled from the spec: `adapter.iptoint` (not among the sources) —
the IP field stores the dotted-quad string as its 32-bit unsigned
integer, validating the format on write. -/
def iptoint (s : String) : Except PyErr Nat :=
  match (splitDots s.toList).mapM digitsToNat with
  | some [a, b, c, d] =>
    if a ≤ 255 ∧ b ≤ 255 ∧ c ≤ 255 ∧ d ≤ 255 then
      .ok (a * 16777216 + b * 65536 + c * 256 + d)
    else .error (.valueError ("illegal IP address string " ++ s))
  | _ => .error (.valueError ("illegal IP address string " ++ s))

/-- Modelled from the spec: `adapter.iptostr`, the inverse rendering of
a 32-bit integer as a dotted-quad string. -/
def iptostr (n : Nat) : String :=
  String.intercalate "."
    [toString (n / 16777216 % 256), toString (n / 65536 % 256),
     toString (n / 256 % 256), toString (n % 256)]

/-- `IP.db_value`: `None` passes through, any other value is converted
by `adapter.iptoint(str(value))`. -/
def ipDbValue : Option String → Except PyErr (Option Nat)
  | none => .ok none
  | some s => (iptoint s).map some

/-- A host value handed to `IP.py_value`: `None`, an int or a string. -/
inductive IpIn where
  | inone
  | iint (n : Nat)
  | istr (s : String)
  deriving DecidableEq, Repr

/-- `IP.py_value`: `None` passes through; an int is rendered dotted; a
falsy (empty) string is returned; any other string is validated by
`iptoint` and returned unchanged. -/
def ipPyValue : IpIn → Except PyErr (Option String)
  | .inone => .ok none
  | .iint n => .ok (some (iptostr n))
  | .istr s =>
    if s = "" then .ok (some s)
    else (iptoint s).map (fun _ => some s)

/-- A minimal `datetime.datetime`. -/
structure Dtm where
  year : Nat
  month : Nat
  day : Nat
  hour : Nat
  minute : Nat
  second : Nat
  deriving DecidableEq, Repr

/-- A host value handed to the `Timestamp` field's conversions: `None`,
a `datetime`, a `date`, a string, or a numeric epoch. -/
inductive TsIn where
  | tnone
  | tdt (d : Dtm)
  | tdate (y m d : Nat)
  | tstr (s : String)
  | tnum (n : Int)
  deriving DecidableEq, Repr

/-- `Timestamp.db_value`: `None` passes through; a `datetime` is kept; a
`date` is widened to midnight; a string goes through the external
`adapter.simple_datetime` parser; a number is interpreted as an epoch
through `datetime.(utc)fromtimestamp` — both external functions are
parameters here, as they live outside the sources. -/
def timestampDbValue (fromTs fromTsUtc : Int → Dtm)
    (parseStr : String → Except PyErr Dtm) (utc : Bool) :
    TsIn → Except PyErr (Option Dtm)
  | .tnone => .ok none
  | .tdt d => .ok (some d)
  | .tdate y m d => .ok (some ⟨y, m, d, 0, 0, 0⟩)
  | .tstr s => (parseStr s).map some
  | .tnum n => .ok (some (if utc then fromTsUtc n else fromTs n))

/-- `Timestamp.py_value`: `None` passes through; a number is an epoch
through `datetime.(utc)fromtimestamp`; anything else goes through the
external `adapter.simple_datetime` normalizer (a parameter here, as it
lives outside the sources). -/
def timestampPyValue (fromTs fromTsUtc : Int → Dtm)
    (simpleDt : TsIn → Except PyErr Dtm) (utc : Bool) :
    TsIn → Except PyErr (Option Dtm)
  | .tnone => .ok none
  | .tnum n => .ok (some (if utc then fromTsUtc n else fromTs n))
  | v => (simpleDt v).map some

/-- Claim C3: comparing a column-like node to the host null with `==`
builds an expression carrying the IS operator (never EQ `=`), and with
`!=` one carrying IS NOT (never NE `!=`); for every non-null right-hand
side the operators are `=` and `!=` respectively. -/
theorem null_comparison_rewrites_to_is :
    (∀ c : Term, (colEq c (.rawT .vNull)).opOf = "IS")
    ∧ (∀ c rhs : Term, rhs ≠ .rawT .vNull → (colEq c rhs).opOf = "=")
    ∧ (∀ c : Term, (colNe c (.rawT .vNull)).opOf = "IS NOT")
    ∧ (∀ c rhs : Term, rhs ≠ .rawT .vNull → (colNe c rhs).opOf = "!=") := by
  refine ⟨fun c => rfl, fun c rhs h => ?_, fun c => rfl, fun c rhs h => ?_⟩ <;>
    simp [colEq, colNe, Term.opOf, h]

/-- Witness for C3 at a concrete column and right-hand sides. -/
theorem null_comparison_rewrites_to_is_witness :
    (colEq (.fieldT "a") (.rawT .vNull)).opOf = "IS"
    ∧ (colEq (.fieldT "a") (.rawT (.vInt 1))).opOf = "="
    ∧ (colNe (.fieldT "a") (.rawT .vNull)).opOf = "IS NOT"
    ∧ (colNe (.fieldT "a") (.rawT (.vInt 1))).opOf = "!=" :=
  ⟨null_comparison_rewrites_to_is.1 _,
   null_comparison_rewrites_to_is.2.1 _ _ (by decide),
   null_comparison_rewrites_to_is.2.2.1 _,
   null_comparison_rewrites_to_is.2.2.2 _ _ (by decide)⟩

/-- Claim C2 counterexample: for a non-nullable, non-auto-increment
field, a raw-SQL default is NOT dropped — the clause is
`NOT NULL DEFAULT 0` for an `SQL("0")` default, not the bare
`NOT NULL` the claim requires; moreover a plain default equal to the
`'null'` sentinel string yields a bare `NOT NULL` instead of a quoted
DEFAULT clause. -/
theorem notnull_default_counterexample :
    parseDefault pyStr false false (.sqlD "0") "int" = some "NOT NULL DEFAULT 0"
    ∧ parseDefault pyStr false false (.sqlD "0") "int" ≠ some "NOT NULL"
    ∧ parseDefault pyStr false false (.plainD (.vStr "null")) "char" = some "NOT NULL" :=
  ⟨rfl, by decide, rfl⟩

/-- Claim C2 as amended: for every non-nullable (`null=False`),
non-auto-increment field, the clause is `NOT NULL` when no default is
set; `NOT NULL DEFAULT '<stringified-default>'` when the default is
neither a raw-SQL literal, nor a callable, nor equal to the `'null'`
sentinel; `NOT NULL DEFAULT <verbatim-sql>` when the default is a
raw-SQL literal; and a bare `NOT NULL` when the default is a callable
or equals the sentinel. -/
theorem notnull_default_amended (adapt : DbVal → String) (dbType : String) :
    parseDefault adapt false false .noneD dbType = some "NOT NULL"
    ∧ (∀ v : DbVal, v ≠ .vStr "null" →
        parseDefault adapt false false (.plainD v) dbType
          = some ("NOT NULL DEFAULT '" ++ adapt v ++ "'"))
    ∧ (∀ s : String, parseDefault adapt false false (.sqlD s) dbType
          = some ("NOT NULL DEFAULT " ++ s))
    ∧ parseDefault adapt false false .callableD dbType = some "NOT NULL"
    ∧ parseDefault adapt false false (.plainD (.vStr "null")) dbType
        = some "NOT NULL" := by
  refine ⟨rfl, fun v hv => ?_, fun s => ?_, rfl, rfl⟩
  · have hs : isNullSentinel (.plainD v) = false := by
      cases v with
      | vStr s =>
        simp only [isNullSentinel, decide_eq_false_iff_not]
        intro h
        exact hv (by rw [h])
      | vNull => rfl
      | vInt i => rfl
    simp only [parseDefault, hs, if_false, toDefaultSql, Bool.false_eq_true]
    rw [← String.append_assoc, ← String.append_assoc]
    rfl
  · simp only [parseDefault, isNullSentinel, toDefaultSql, Bool.false_eq_true, if_false]
    rw [← String.append_assoc]
    rfl

/-- Witness for C2 (amended) at a concrete stringifier and defaults. -/
theorem notnull_default_amended_witness :
    parseDefault pyStr false false .noneD "int" = some "NOT NULL"
    ∧ ((DbVal.vInt 7) ≠ DbVal.vStr "null"
        ∧ parseDefault pyStr false false (.plainD (.vInt 7)) "int"
            = some ("NOT NULL DEFAULT '" ++ pyStr (.vInt 7) ++ "'"))
    ∧ parseDefault pyStr false false (.sqlD "CURRENT_TIMESTAMP") "timestamp"
        = some ("NOT NULL DEFAULT " ++ "CURRENT_TIMESTAMP")
    ∧ parseDefault pyStr false false .callableD "int" = some "NOT NULL" :=
  ⟨(notnull_default_amended pyStr "int").1,
   ⟨by decide, (notnull_default_amended pyStr "int").2.1 _ (by decide)⟩,
   (notnull_default_amended pyStr "timestamp").2.2.1 _,
   (notnull_default_amended pyStr "int").2.2.2.1⟩

/-- Claim C4: an `Int` field constructed with `primary_key=True` has its
nullability forced to false and raises when an explicit default is
supplied; `auto=True` with `primary_key=False` always raises; and
`primary_key=True, auto=True` (with a `Table` carrying it as primary
key) never raises. -/
theorem int_pk_auto_constructor :
    (∀ len uns zf auto null cmt nm f,
        intInit len uns zf true auto null none cmt nm = .ok f → f.null = false)
    ∧ (∀ len uns zf auto null d cmt nm,
        intInit len uns zf true auto null (some d) cmt nm
          = .error (.programmingError "Primary key field not allow set default"))
    ∧ (∀ len uns zf null d cmt nm,
        intInit len uns zf false true null d cmt nm
          = .error (.programmingError
              "'AUTO_INCREMENT' cannot be set for non-primary key fields"))
    ∧ (∀ len uns zf null cmt nm, ∃ f,
        intInit len uns zf true true null none cmt nm = .ok f
          ∧ f.primary_key = true ∧ f.auto = true)
    ∧ (∀ db tnm fs bg eng chs cm pf, ∃ tb,
        (tableInit db tnm fs ⟨some pf, bg⟩ eng chs cm).2 = .ok tb) := by
  refine ⟨?_, ?_, ?_, ?_, ?_⟩
  · intro len uns zf auto null cmt nm f h
    simp only [intInit, if_true, ne_eq, not_true_eq_false, if_false,
      reduceCtorEq, ite_true, ite_false, not_false_eq_true] at h
    simp only [Except.ok.injEq] at h
    rw [← h]
  · intro len uns zf auto null d cmt nm
    simp [intInit]
  · intro len uns zf null d cmt nm
    simp [intInit]
  · intro len uns zf null cmt nm
    refine ⟨⟨pyOrNat len 11, uns, zf, true, true, false, none, cmt, nm, none, false⟩,
      ?_, rfl, rfl⟩
    simp [intInit]
  · intro db tnm fs bg eng chs cm pf
    refine ⟨⟨db, tnm, pyOrNat bg 1, pyOrStr eng "InnoDB", pyOrStr chs "utf8",
      pyOrStr cm "", some pf⟩, ?_⟩
    simp [tableInit]

/-- Witness for C4 at a concrete auto-increment primary-key field and a
concrete table. -/
theorem int_pk_auto_constructor_witness :
    (⟨11, false, false, true, true, false, none, "", "id", none, false⟩ : IntField).null
        = false
    ∧ intInit none false false true false true (some (.intD 3)) "" "id"
        = .error (.programmingError "Primary key field not allow set default")
    ∧ intInit none false false false true true none "" "id"
        = .error (.programmingError
            "'AUTO_INCREMENT' cannot be set for non-primary key fields") :=
  ⟨int_pk_auto_constructor.1 none false false true true "" "id" _ (by rfl),
   int_pk_auto_constructor.2.1 none false false false true (.intD 3) "" "id",
   int_pk_auto_constructor.2.2.1 none false false true none "" "id"⟩

/-- Claim C10: `Table.__init__` assigns every field's `table`
back-reference before validating the primary key, so when construction
fails with the missing-primary-key error the caller's field objects have
already been mutated to point at the partially constructed table. -/
theorem table_init_mutates_before_pk_check (db : Option String) (nm : String)
    (fs : List (String × FieldS)) (bg : Option Nat) (eng chs cm : Option String) :
    (tableInit db nm fs ⟨none, bg⟩ eng chs cm).2
      = .error (.noPK ("Primary key not found for table " ++ tableName db nm))
    ∧ ∀ kf ∈ (tableInit db nm fs ⟨none, bg⟩ eng chs cm).1,
        kf.2.table = some (tableName db nm) := by
  have hfst : (tableInit db nm fs ⟨none, bg⟩ eng chs cm).1
      = fs.map (fun kf => (kf.1, { kf.2 with table := some (tableName db nm) })) := by
    simp [tableInit]
  constructor
  · simp [tableInit]
  · intro kf hkf
    rw [hfst] at hkf
    rw [List.mem_map] at hkf
    obtain ⟨x, -, rfl⟩ := hkf
    rfl

/-- Witness for C10 at a concrete single-field table lacking a primary
key. -/
theorem table_init_mutates_before_pk_check_witness :
    (tableInit none "users" [("id", ⟨"id", none⟩)] ⟨none, none⟩ none none none).2
      = .error (.noPK ("Primary key not found for table " ++ tableName none "users"))
    ∧ ("id", (⟨"id", some "`users`"⟩ : FieldS)).2.table
        = some (tableName none "users") :=
  ⟨(table_init_mutates_before_pk_check none "users" [("id", ⟨"id", none⟩)]
      none none none none).1,
   (table_init_mutates_before_pk_check none "users" [("id", ⟨"id", none⟩)]
      none none none none).2 ("id", ⟨"id", some "`users`"⟩) (by decide)⟩

/-- Claim C5: `py_value` and `db_value` map `None` to `None` unchanged,
for the base field body (inherited by `Bool`, `Email`, `URL`, `Date`,
`Time` and `DateTime`, which override only `adapt`) and for every
overriding variant: `Decimal`, `UUID`, `IP` and `Timestamp`. -/
theorem none_passthrough_conversions :
    (∀ adapt, field_py_value adapt none = .ok none
        ∧ field_db_value adapt none = .ok none)
    ∧ (∀ scale rnd autoRound, decDbValue scale rnd autoRound .dnone = .ok none)
    ∧ decPyValue .dnone = .ok none
    ∧ uuidDbValue .unone = .unone
    ∧ uuidPyValue .unone = .ok none
    ∧ ipDbValue none = .ok none
    ∧ ipPyValue .inone = .ok none
    ∧ (∀ fa fb ps utc, timestampDbValue fa fb ps utc .tnone = .ok none)
    ∧ (∀ fa fb sd utc, timestampPyValue fa fb sd utc .tnone = .ok none) := by
  exact ⟨fun _ => ⟨rfl, rfl⟩, fun _ _ _ => rfl, rfl, rfl, rfl, rfl, rfl,
    fun _ _ _ _ => rfl, fun _ _ _ _ => rfl⟩

/-- Claim C7 counterexample: `"zzz"` is malformed (not 32 characters,
not bytes, not parseable as a UUID), yet `UUID.db_value` returns it
unchanged instead of raising — the `except Exception` handler swallows
the conversion failure. -/
theorem uuid_db_value_counterexample :
    "zzz".length ≠ 32
    ∧ uuidCanon "zzz" = none
    ∧ uuidDbValue (.ustr "zzz") = .ustr "zzz" :=
  ⟨by decide, by rfl, by rfl⟩

/-- Claim C7 as amended: for every malformed string input (not 32
characters and not parseable as a UUID), `db_value` returns the value
unchanged — it never raises — while the conversion error surfaces in
`py_value`, which has no exception handler. -/
theorem uuid_db_value_amended (s : String) (h32 : s.length ≠ 32)
    (hbad : uuidCanon s = none) :
    uuidDbValue (.ustr s) = .ustr s
    ∧ uuidPyValue (.ustr s)
        = .error (.valueError "badly formed hexadecimal UUID string") := by
  constructor
  · simp [uuidDbValue, h32, hbad]
  · simp [uuidPyValue, hbad]

/-- Witness for C7 (amended) at the concrete malformed input `"zzz"`. -/
theorem uuid_db_value_amended_witness :
    "zzz".length ≠ 32 ∧ uuidCanon "zzz" = none
    ∧ uuidDbValue (.ustr "zzz") = .ustr "zzz"
    ∧ uuidPyValue (.ustr "zzz")
        = .error (.valueError "badly formed hexadecimal UUID string") :=
  ⟨by decide, by rfl, (uuid_db_value_amended "zzz" (by decide) (by rfl)).1,
   (uuid_db_value_amended "zzz" (by decide) (by rfl)).2⟩

/-- Claim C8: a `Decimal` field with scale 2 and `auto_round` converts
`"3.14159"` to a decimal equal to `3.14` (quantized half-even), and
every falsy non-`None` input short-circuits to a freshly constructed
decimal zero of scale 0, bypassing the rounding path. -/
theorem decimal_autoround_and_falsy :
    (decDbValue 2 .halfEven true (.dstr "3.14159") = .ok (some ⟨314, 2⟩)
      ∧ parseDec "3.14" = .ok ⟨314, 2⟩
      ∧ decValEq ⟨314, 2⟩ ⟨314, 2⟩ = true)
    ∧ (∀ v, decFalsy v = true → v ≠ .dnone →
        decDbValue 2 .halfEven true v = .ok (some ⟨0, 0⟩)) := by
  refine ⟨⟨by rfl, by rfl, by rfl⟩, ?_⟩
  intro v hf hv
  cases v with
  | dnone => exact absurd rfl hv
  | dstr s => simp [decDbValue, hf]
  | dint i => simp [decDbValue, hf]
  | ddec d => simp [decDbValue, hf]

/-- Witness for C8 at the concrete falsy input `0`. -/
theorem decimal_autoround_and_falsy_witness :
    decFalsy (.dint 0) = true ∧ (DecIn.dint 0) ≠ .dnone
    ∧ decDbValue 2 .halfEven true (.dint 0) = .ok (some ⟨0, 0⟩) :=
  ⟨rfl, by decide, decimal_autoround_and_falsy.2 _ rfl (by decide)⟩

theorem lit_aliases (c : Ctx) (s : String) : (c.lit s).aliases = c.aliases := rfl

theorem bindValue_aliases (c : Ctx) (v : DbVal) :
    (c.bindValue v).aliases = c.aliases := by
  simp only [Ctx.bindValue]
  split <;> rfl

theorem bindSeq_aliases (c : Ctx) (vs : List DbVal) :
    (c.bindSeq vs).aliases = c.aliases := rfl

theorem restore_aliases (c : Ctx) (o : CtxOpts) :
    (c.restore o).aliases = c.aliases := rfl

/-- Rendering leaves a tree unchanged whenever it contains no IN-family
expression (the only mutation in `Expression.__sql__` is the rhs
coercion of those operators). -/
theorem renderT_id_of_noInOp (t : Term) :
    ∀ c t' c', noInOp t = true → renderT t c = .ok (t', c') → t' = t := by
  induction t with
  | sqlT s =>
    intro c t' c' _ h
    simp only [renderT, Except.ok.injEq, Prod.mk.injEq] at h
    exact h.1.symm
  | valueT v =>
    intro c t' c' _ h
    simp only [renderT, Except.ok.injEq, Prod.mk.injEq] at h
    exact h.1.symm
  | rawT v =>
    intro c t' c' _ h
    simp only [renderT, Except.ok.injEq, Prod.mk.injEq] at h
    exact h.1.symm
  | rawSeqT vs =>
    intro c t' c' _ h
    simp only [renderT, Except.ok.injEq, Prod.mk.injEq] at h
    exact h.1.symm
  | fieldT n =>
    intro c t' c' _ h
    simp only [renderT] at h
    split at h
    · simp at h
    · simp only [Except.ok.injEq, Prod.mk.injEq] at h
      exact h.1.symm
  | funcT f a ih =>
    intro c t' c' hno h
    simp only [noInOp] at hno
    simp only [renderT] at h
    cases hr : renderT a ((c.lit (upperStr f)).lit "(") with
    | error e => rw [hr] at h; simp at h
    | ok pr =>
      obtain ⟨a', c1⟩ := pr
      rw [hr] at h
      simp only [Except.ok.injEq, Prod.mk.injEq] at h
      rw [← h.1, ih _ _ _ hno hr]
  | enclosedT inner ih =>
    intro c t' c' hno h
    simp only [noInOp] at hno
    simp only [renderT] at h
    cases hr : renderT inner (c.lit "(") with
    | error e => rw [hr] at h; simp at h
    | ok pr =>
      obtain ⟨i', c1⟩ := pr
      rw [hr] at h
      simp only [Except.ok.injEq, Prod.mk.injEq] at h
      rw [← h.1, ih _ _ _ hno hr]
  | aliasT n al ih =>
    intro c t' c' hno h
    simp only [noInOp] at hno
    simp only [renderT] at h
    split at h
    · simp at h
    · rename_i n' c1 hr
      split at h
      · split at h
        · simp at h
        · simp only [Except.ok.injEq, Prod.mk.injEq] at h
          rw [← h.1, ih _ _ _ hno hr]
      · simp only [Except.ok.injEq, Prod.mk.injEq] at h
        rw [← h.1, ih _ _ _ hno hr]
  | exprT lhs op rhs p ihl ihr =>
    intro c t' c' hno h
    have hops : InFamily op = false ∧ noInOp lhs = true ∧ noInOp rhs = true := by
      simp only [noInOp, Bool.and_eq_true, Bool.not_eq_true'] at hno
      exact ⟨hno.1.1, hno.1.2, hno.2⟩
    simp only [renderT, hops.1, Bool.false_eq_true, if_false] at h
    split at h
    · simp at h
    · rename_i lhs' c2 hrl
      split at h
      · simp at h
      · rename_i rhs' c3 hrr
        simp only [Except.ok.injEq, Prod.mk.injEq] at h
        rw [← h.1, ihl _ _ _ hops.2.1 hrl, ihr _ _ _ hops.2.2 hrr]

theorem ite_lit_aliases (b : Bool) (c : Ctx) (s : String) :
    (if b then c.lit s else c).aliases = c.aliases := by
  cases b <;> rfl

theorem aliases_ext_trans {a b c : List (String × String)}
    (h1 : ∃ e, b = a ++ e) (h2 : ∃ e, c = b ++ e) : ∃ e, c = a ++ e := by
  obtain ⟨e1, rfl⟩ := h1
  obtain ⟨e2, rfl⟩ := h2
  exact ⟨e1 ++ e2, by rw [List.append_assoc]⟩

/-- The alias map only grows during a render pass: a successful render
extends `aliases` on the right. -/
theorem renderT_aliases_extend (t : Term) :
    ∀ c t' c', renderT t c = .ok (t', c') → ∃ ext, c'.aliases = c.aliases ++ ext := by
  induction t with
  | sqlT s =>
    intro c t' c' h
    simp only [renderT, Except.ok.injEq, Prod.mk.injEq] at h
    exact ⟨[], by rw [← h.2, lit_aliases, List.append_nil]⟩
  | valueT v =>
    intro c t' c' h
    simp only [renderT, Except.ok.injEq, Prod.mk.injEq] at h
    exact ⟨[], by rw [← h.2, bindValue_aliases, List.append_nil]⟩
  | rawT v =>
    intro c t' c' h
    simp only [renderT, Except.ok.injEq, Prod.mk.injEq] at h
    exact ⟨[], by rw [← h.2, bindValue_aliases, List.append_nil]⟩
  | rawSeqT vs =>
    intro c t' c' h
    simp only [renderT, Except.ok.injEq, Prod.mk.injEq] at h
    exact ⟨[], by rw [← h.2, bindSeq_aliases, List.append_nil]⟩
  | fieldT n =>
    intro c t' c' h
    simp only [renderT] at h
    split at h
    · simp at h
    · simp only [Except.ok.injEq, Prod.mk.injEq] at h
      exact ⟨[], by rw [← h.2, lit_aliases, List.append_nil]⟩
  | funcT f a ih =>
    intro c t' c' h
    simp only [renderT] at h
    split at h
    · simp at h
    · rename_i a' c1 hr
      simp only [Except.ok.injEq, Prod.mk.injEq] at h
      obtain ⟨ext, hext⟩ := ih _ _ _ hr
      rw [lit_aliases, lit_aliases] at hext
      exact ⟨ext, by rw [← h.2, lit_aliases, hext]⟩
  | enclosedT inner ih =>
    intro c t' c' h
    simp only [renderT] at h
    split at h
    · simp at h
    · rename_i i' c1 hr
      simp only [Except.ok.injEq, Prod.mk.injEq] at h
      obtain ⟨ext, hext⟩ := ih _ _ _ hr
      rw [lit_aliases] at hext
      exact ⟨ext, by rw [← h.2, lit_aliases, hext]⟩
  | aliasT n al ih =>
    intro c t' c' h
    simp only [renderT] at h
    split at h
    · simp at h
    · rename_i n' c1 hr
      obtain ⟨ext, hext⟩ := ih _ _ _ hr
      split at h
      · split at h
        · simp at h
        · simp only [Except.ok.injEq, Prod.mk.injEq] at h
          refine ⟨ext ++ [(al,
            match n with
            | .fieldT nm => if nm = "" then al else nm
            | _ => al)], ?_⟩
          rw [← h.2]
          simp [lit_aliases, hext, List.append_assoc]
      · simp only [Except.ok.injEq, Prod.mk.injEq] at h
        exact ⟨ext, by rw [← h.2, lit_aliases, hext]⟩
  | exprT lhs op rhs p ihl ihr =>
    intro c t' c' h
    simp only [renderT] at h
    split at h
    · -- IN-family operator
      split at h
      · -- sequence-or-node rhs
        split at h
        · simp at h
        · rename_i lhs' c2 hrl
          obtain ⟨e1, he1⟩ := ihl _ _ _ hrl
          rw [ite_lit_aliases] at he1
          split at h
          · -- node rhs, wrapped in an enclosed list
            split at h
            · simp at h
            · rename_i rhs' c3 hrr
              obtain ⟨e2, he2⟩ := ihr _ _ _ hrr
              rw [lit_aliases, lit_aliases] at he2
              simp only [Except.ok.injEq, Prod.mk.injEq] at h
              refine ⟨e1 ++ e2, ?_⟩
              rw [← h.2]
              simp [restore_aliases, ite_lit_aliases, lit_aliases, he2, he1,
                List.append_assoc]
          · -- sequence rhs
            split at h
            · simp at h
            · rename_i rhs' c3 hrr
              obtain ⟨e2, he2⟩ := ihr _ _ _ hrr
              rw [lit_aliases] at he2
              simp only [Except.ok.injEq, Prod.mk.injEq] at h
              refine ⟨e1 ++ e2, ?_⟩
              rw [← h.2]
              simp [restore_aliases, ite_lit_aliases, he2, he1, List.append_assoc]
      · simp at h
    · -- ordinary operator
      split at h
      · simp at h
      · rename_i lhs' c2 hrl
        obtain ⟨e1, he1⟩ := ihl _ _ _ hrl
        rw [ite_lit_aliases] at he1
        split at h
        · simp at h
        · rename_i rhs' c3 hrr
          obtain ⟨e2, he2⟩ := ihr _ _ _ hrr
          rw [lit_aliases] at he2
          simp only [Except.ok.injEq, Prod.mk.injEq] at h
          refine ⟨e1 ++ e2, ?_⟩
          rw [← h.2]
          simp [restore_aliases, ite_lit_aliases, he2, he1, List.append_assoc]

/-- A successful render of an `Alias` over a `Column` node leaves the
alias key registered in the context's alias map. -/
theorem alias_registered (n : Term) (a : String) (c : Ctx) (t' : Term) (c' : Ctx)
    (hcol : isColumn n = true)
    (h : renderT (.aliasT n a) c = .ok (t', c')) :
    c'.aliases.any (fun q => q.1 = a) = true := by
  simp only [renderT] at h
  split at h
  · simp at h
  · rename_i n' c1 hr
    simp only [hcol, if_true] at h
    split at h
    · simp at h
    · simp only [Except.ok.injEq, Prod.mk.injEq] at h
      rw [← h.2]
      simp [List.any_append]

/-- Claim C9 as amended: within one render pass, after an `Alias` over a
`Column` node has registered an alias string, rendering a second `Alias`
over a `Column` node carrying the same alias string fails with the
ambiguous-alias error — provided the second alias's inner node itself
renders successfully (an inner failure, e.g. an unnamed field, surfaces
first, and an `Alias` over a non-`Column` node never registers). -/
theorem second_alias_registration_ambiguous (n1 n2 : Term) (a : String)
    (c : Ctx) (t1 : Term) (c1 : Ctx) (t2 : Term) (c2 : Ctx)
    (h1col : isColumn n1 = true) (h2col : isColumn n2 = true)
    (h1 : renderT (.aliasT n1 a) c = .ok (t1, c1))
    (h2 : renderT n2 c1 = .ok (t2, c2)) :
    renderT (.aliasT n2 a) c1
      = .error (.programmingError ("Ambiguous alias: " ++ a)) := by
  have hreg := alias_registered n1 a c t1 c1 h1col h1
  obtain ⟨ext, hext⟩ := renderT_aliases_extend n2 c1 t2 c2 h2
  have hany2 : ((c2.lit (" AS `" ++ a ++ "`")).aliases.any (fun q => q.1 = a))
      = true := by
    rw [lit_aliases, hext, List.any_append, hreg, Bool.true_or]
  simp only [renderT, h2, h2col, if_true, hany2]

/-- Witness for C9 (amended) at two concrete field aliases sharing the
alias string `"c"` inside one render pass. -/
theorem second_alias_registration_ambiguous_witness :
    isColumn (.fieldT "x") = true
    ∧ isColumn (.fieldT "y") = true
    ∧ renderT (.aliasT (.fieldT "x") "c") Ctx.init
        = .ok (.aliasT (.fieldT "x") "c",
               ⟨"`x` AS `c`", [], [("c", "x")], false, false, false⟩)
    ∧ renderT (.fieldT "y") ⟨"`x` AS `c`", [], [("c", "x")], false, false, false⟩
        = .ok (.fieldT "y",
               ⟨"`x` AS `c``y`", [], [("c", "x")], false, false, false⟩)
    ∧ renderT (.aliasT (.fieldT "y") "c")
        ⟨"`x` AS `c`", [], [("c", "x")], false, false, false⟩
        = .error (.programmingError ("Ambiguous alias: " ++ "c")) :=
  ⟨rfl, rfl, rfl, rfl,
   second_alias_registration_ambiguous (.fieldT "x") (.fieldT "y") "c"
     Ctx.init (.aliasT (.fieldT "x") "c")
     ⟨"`x` AS `c`", [], [("c", "x")], false, false, false⟩
     (.fieldT "y")
     ⟨"`x` AS `c``y`", [], [("c", "x")], false, false, false⟩
     rfl rfl rfl rfl⟩

/-- Claim C9 counterexample: two `Alias` nodes carrying the same alias
string `"c"` but wrapping non-`Column` nodes (`Func` calls) both render
successfully inside one render pass — no alias is registered and no
ambiguous-alias error is raised, so the property does not hold for every
pair of `Alias` nodes. -/
theorem alias_ambiguity_counterexample :
    renderT (.aliasT (.funcT "count" (.sqlT "x")) "c") Ctx.init
      = .ok (.aliasT (.funcT "count" (.sqlT "x")) "c",
             ⟨"COUNT(x) AS `c`", [], [], false, false, false⟩)
    ∧ renderT (.aliasT (.funcT "sum" (.sqlT "y")) "c")
        ⟨"COUNT(x) AS `c`", [], [], false, false, false⟩
      = .ok (.aliasT (.funcT "sum" (.sqlT "y")) "c",
             ⟨"COUNT(x) AS `c`SUM(y) AS `c`", [], [], false, false, false⟩)
    ∧ (renderT (.aliasT (.funcT "sum" (.sqlT "y")) "c")
        ⟨"COUNT(x) AS `c`", [], [], false, false, false⟩).isOk = true :=
  ⟨rfl, rfl, rfl⟩

/-- Claim C1 counterexample: rendering an IN expression whose rhs is a
`Node` mutates the expression — the rhs is replaced by a one-element
enclosed list — so a second call of the render entry point on the same
tree, each with a fresh `Context`, produces different SQL text
(`(a IN ((SELECT 1)))` versus `(a IN (((SELECT 1))))`) and the operand
is not preserved. -/
theorem render_in_mutation_counterexample :
    render (.exprT (.sqlT "a") "IN" (.sqlT "(SELECT 1)") true)
      = .ok (.exprT (.sqlT "a") "IN" (.enclosedT (.sqlT "(SELECT 1)")) true,
             "(a IN ((SELECT 1)))", [])
    ∧ render (.exprT (.sqlT "a") "IN" (.enclosedT (.sqlT "(SELECT 1)")) true)
      = .ok (.exprT (.sqlT "a") "IN"
               (.enclosedT (.enclosedT (.sqlT "(SELECT 1)"))) true,
             "(a IN (((SELECT 1))))", [])
    ∧ (Term.exprT (.sqlT "a") "IN" (.enclosedT (.sqlT "(SELECT 1)")) true)
        ≠ .exprT (.sqlT "a") "IN" (.sqlT "(SELECT 1)") true
    ∧ ("(a IN ((SELECT 1)))" : String) ≠ "(a IN (((SELECT 1))))" :=
  ⟨rfl, rfl, by decide, by decide⟩

/-- Claim C1 as amended: for every expression tree containing no
IN / NOT IN / EXISTS / NOT EXISTS operator, the render entry point is
pure and deterministic — a successful render returns the tree unchanged,
and a second call on the same tree with a fresh `Context` produces the
same SQL text and the same ordered parameter list.  (Trees containing an
IN-family operator are mutated by rendering, as the counterexample
shows.) -/
theorem render_deterministic_without_in (t t₁ : Term) (s₁ : String)
    (p₁ : List DbVal) (hno : noInOp t = true)
    (h₁ : render t = .ok (t₁, s₁, p₁)) :
    t₁ = t ∧ render t₁ = .ok (t₁, s₁, p₁) := by
  have ht : t₁ = t := by
    simp only [render] at h₁
    split at h₁
    · simp at h₁
    · rename_i t2 c2 hr
      simp only [Except.ok.injEq, Prod.mk.injEq] at h₁
      rw [← h₁.1]
      exact renderT_id_of_noInOp t _ _ _ hno hr
  exact ⟨ht, ht ▸ h₁⟩

/-- Witness for C1 (amended) at a concrete IN-free expression: a field
compared to a host value, rendered with the field's string converter
active. -/
theorem render_deterministic_without_in_witness :
    noInOp (.exprT (.fieldT "age") "=" (.rawT (.vInt 1)) true) = true
    ∧ render (.exprT (.fieldT "age") "=" (.rawT (.vInt 1)) true)
        = .ok (.exprT (.fieldT "age") "=" (.rawT (.vInt 1)) true,
               "(`age` = ?)", [.vStr "1"]) :=
  ⟨rfl,
   (render_deterministic_without_in
     (.exprT (.fieldT "age") "=" (.rawT (.vInt 1)) true)
     (.exprT (.fieldT "age") "=" (.rawT (.vInt 1)) true)
     "(`age` = ?)" [.vStr "1"] rfl rfl).2⟩

/-- Claim C6: when an expression with an IN / NOT IN / EXISTS /
NOT EXISTS operator is rendered, a rhs that is neither a sequence nor a
`Node` raises `TypeError` (before anything is emitted); a `Node` rhs is
coerced to a one-element enclosed (parenthesized) list; and a sequence
rhs is rendered as an enclosed comma list of bound values. -/
theorem in_rhs_coercion_contract :
    (∀ lhs op v p c, InFamily op = true →
      renderT (.exprT lhs op (.rawT v) p) c
        = .error (.typeError
            ("Invalid values " ++ pyStr v ++ " for operator '" ++ op ++ "'")))
    ∧ (∀ lhs op rhs p c t' c', InFamily op = true → isNode rhs = true →
        renderT (.exprT lhs op rhs p) c = .ok (t', c') →
        ∃ lhs2 rhs2, t' = .exprT lhs2 op (.enclosedT rhs2) p)
    ∧ (∀ s op vs, InFamily op = true →
        render (.exprT (.sqlT s) op (.rawSeqT vs) true)
          = .ok (.exprT (.sqlT s) op (.rawSeqT vs) true,
                 "(" ++ s ++ " " ++ op ++ " " ++ "("
                   ++ String.intercalate ", " (vs.map (fun _ => "?")) ++ ")"
                   ++ ")",
                 vs)) := by
  refine ⟨?_, ?_, ?_⟩
  · intro lhs op v p c hop
    simp [renderT, hop, isNode, isSeqT, termStr]
  · intro lhs op rhs p c t' c' hop hnode h
    simp only [renderT, hop, hnode, Bool.true_or, if_true] at h
    split at h
    · simp at h
    · rename_i lhs' c2 hrl
      split at h
      · simp at h
      · rename_i rhs' c3 hrr
        simp only [Except.ok.injEq, Prod.mk.injEq] at h
        exact ⟨lhs', rhs', h.1.symm⟩
  · intro s op vs hop
    simp [render, renderT, hop, isNode, isSeqT, isFieldT, Ctx.init, Ctx.lit,
      Ctx.bindSeq, Ctx.restore, Ctx.opts, String.append_assoc,
      String.empty_append]
    rw [show (" (" : String) = " " ++ "(" from rfl, String.append_assoc " " "("]

/-- Witness for C6 at concrete IN expressions: a raw-value rhs, a node
rhs, and a sequence rhs. -/
theorem in_rhs_coercion_contract_witness :
    renderT (.exprT (.sqlT "a") "IN" (.rawT (.vInt 5)) true) Ctx.init
      = .error (.typeError
          ("Invalid values " ++ pyStr (.vInt 5) ++ " for operator '" ++ "IN" ++ "'"))
    ∧ (∃ lhs2 rhs2,
        (Term.exprT (.sqlT "a") "NOT IN" (.enclosedT (.sqlT "(S)")) true)
          = .exprT lhs2 "NOT IN" (.enclosedT rhs2) true)
    ∧ render (.exprT (.sqlT "a") "IN" (.rawSeqT [.vInt 1, .vInt 2]) true)
        = .ok (.exprT (.sqlT "a") "IN" (.rawSeqT [.vInt 1, .vInt 2]) true,
               "(a IN (?, ?))", [.vInt 1, .vInt 2]) :=
  ⟨in_rhs_coercion_contract.1 (.sqlT "a") "IN" (.vInt 5) true Ctx.init rfl,
   in_rhs_coercion_contract.2.1 (.sqlT "a") "NOT IN" (.sqlT "(S)") true Ctx.init
     (.exprT (.sqlT "a") "NOT IN" (.enclosedT (.sqlT "(S)")) true)
     ⟨"(a NOT IN ((S)))", [], [], false, false, false⟩ rfl rfl rfl,
   by rfl⟩
